import Mathlib

/-!
Shallow embedding of the packet framing and binary decoding layer of the
f1-telemetry repository (src/f1-telemetry/src/lib.rs and
src/f1-telemetry/src/packet/motion.rs), together with the parts of the
`packet` module that the repository snapshot does not include under src/
(the common header decoder, the `WheelData` generic and the `parse_packet`
dispatcher), which are modelled from the specification.

Representation choices:
* a byte buffer is a `List Nat` (each entry a byte value); `ByteCursor`
  pairs a buffer with a read position, modelling the `BufRead` reader the
  Rust decoders consume;
* an `f32` field is represented by its 32-bit little-endian bit pattern as
  a `Nat`: the decoders read IEEE754 floats verbatim and never perform
  float arithmetic, so the bit pattern is a faithful value;
* an `i16` field is represented by the two's-complement `Int` value of the
  two bytes read;
* `DecodeResult` has three outcomes: `ok`, `err` (a returned
  `UnpackError`), and `panicked`, which models a Rust panic — the decoders
  in motion.rs call `.unwrap()` on every read, so a read failure
  (`UnexpectedEof` on a short buffer) unwinds instead of returning `Err`.
-/

/-- Buffer of byte values with a current read position; models the Rust
reader (`BufRead` over the received datagram bytes). -/
structure ByteCursor where
  data : List Nat
  pos : Nat
  deriving DecidableEq, Repr

/-- Byte of a buffer at an index (reads are always bounds-checked before
this is used, so the default is never observed by a successful read). -/
def byteAt (data : List Nat) (i : Nat) : Nat := data.getD i 0

/-- Little-endian 16-bit value assembled from two bytes. -/
def le16At (data : List Nat) (i : Nat) : Nat :=
  byteAt data i + 256 * byteAt data (i + 1)

/-- Little-endian 32-bit value assembled from four bytes; for float fields
this is the raw IEEE754 bit pattern, read verbatim. -/
def le32At (data : List Nat) (i : Nat) : Nat :=
  byteAt data i + 256 * byteAt data (i + 1) + 65536 * byteAt data (i + 2) +
    16777216 * byteAt data (i + 3)

/-- Little-endian 64-bit value assembled from eight bytes. -/
def le64At (data : List Nat) (i : Nat) : Nat :=
  le32At data i + 4294967296 * le32At data (i + 4)

/-- Two's-complement signed 16-bit value of the two little-endian bytes at
an index: models `read_i16::<LittleEndian>`. -/
def i16At (data : List Nat) (i : Nat) : Int :=
  if le16At data i < 32768 then (le16At data i : Int)
  else (le16At data i : Int) - 65536

/-- Error type of the decoding layer: `pub struct UnpackError(pub String)`
(constructed in lib.rs; the struct itself lives in the `packet` module). -/
structure UnpackError where
  msg : String
  deriving DecidableEq, Repr

/-- Outcome of running a decoder: a value, a returned `UnpackError`, or a
Rust panic (an `unwrap` of a failed read unwinding through the caller). -/
inductive DecodeResult (α : Type) where
  | ok : α → DecodeResult α
  | err : UnpackError → DecodeResult α
  | panicked : DecodeResult α
  deriving DecidableEq, Repr

namespace DecodeResult

/-- Sequencing of decoder steps: `?` propagates `err`, and a panic unwinds
through every caller. -/
def bind : DecodeResult α → (α → DecodeResult β) → DecodeResult β
  | ok a, f => f a
  | err e, _ => err e
  | panicked, _ => panicked

instance : Monad DecodeResult where
  pure := ok
  bind := bind

@[simp] theorem bind_ok (a : α) (f : α → DecodeResult β) :
    bind (ok a) f = f a := rfl

@[simp] theorem bind_err (e : UnpackError) (f : α → DecodeResult β) :
    bind (err e) f = err e := rfl

@[simp] theorem bind_panicked (f : α → DecodeResult β) :
    bind (panicked : DecodeResult α) f = panicked := rfl

@[simp] theorem monad_bind_eq_bind (x : DecodeResult α) (f : α → DecodeResult β) :
    x >>= f = bind x f := rfl

@[simp] theorem pure_eq_ok (a : α) : (pure a : DecodeResult α) = ok a := rfl

end DecodeResult

open DecodeResult

/-- Model of `reader.read_f32::<LittleEndian>().unwrap()`: reads four bytes
little-endian as the raw bit pattern and advances the cursor; when fewer
than four bytes remain, `read_f32` returns `Err(UnexpectedEof)` and the
`unwrap` panics. -/
def readF32 (c : ByteCursor) : DecodeResult (Nat × ByteCursor) :=
  if c.pos + 4 ≤ c.data.length then
    ok (le32At c.data c.pos, ⟨c.data, c.pos + 4⟩)
  else panicked

/-- Model of `reader.read_i16::<LittleEndian>().unwrap()`: reads two bytes
little-endian as a signed 16-bit value and advances the cursor; when fewer
than two bytes remain, the `unwrap` panics. -/
def readI16 (c : ByteCursor) : DecodeResult (Int × ByteCursor) :=
  if c.pos + 2 ≤ c.data.length then
    ok (i16At c.data c.pos, ⟨c.data, c.pos + 2⟩)
  else panicked

theorem readF32_ok (data : List Nat) (pos : Nat) (h : pos + 4 ≤ data.length) :
    readF32 ⟨data, pos⟩ = ok (le32At data pos, ⟨data, pos + 4⟩) := by
  simp [readF32, h]

theorem readF32_panicked (data : List Nat) (pos : Nat)
    (h : data.length < pos + 4) : readF32 ⟨data, pos⟩ = panicked := by
  rw [readF32, if_neg (by simp; omega)]

theorem readI16_ok (data : List Nat) (pos : Nat) (h : pos + 2 ≤ data.length) :
    readI16 ⟨data, pos⟩ = ok (i16At data pos, ⟨data, pos + 2⟩) := by
  simp [readI16, h]

theorem readI16_panicked (data : List Nat) (pos : Nat)
    (h : data.length < pos + 2) : readI16 ⟨data, pos⟩ = panicked := by
  rw [readI16, if_neg (by simp; omega)]

/-- Per-car motion record (src/f1-telemetry/src/packet/motion.rs,
`struct MotionData`): float fields carried as raw 32-bit patterns, the six
normalised direction components as raw signed 16-bit integers. -/
structure MotionData where
  world_position_x : Nat
  world_position_y : Nat
  world_position_z : Nat
  world_velocity_x : Nat
  world_velocity_y : Nat
  world_velocity_z : Nat
  world_forward_dir_x : Int
  world_forward_dir_y : Int
  world_forward_dir_z : Int
  world_right_dir_x : Int
  world_right_dir_y : Int
  world_right_dir_z : Int
  g_force_lateral : Nat
  g_force_longitudinal : Nat
  g_force_vertical : Nat
  yaw : Nat
  pitch : Nat
  roll : Nat
  deriving DecidableEq, Repr

/-- Model of `MotionData::new` (motion.rs lines 58–98): eighteen sequential
unwrapped reads — six `f32`, six `i16`, six `f32` — then the record is
assembled from the values in read order. -/
def MotionData.new (c : ByteCursor) : DecodeResult (MotionData × ByteCursor) := do
  let (world_position_x, c) ← readF32 c
  let (world_position_y, c) ← readF32 c
  let (world_position_z, c) ← readF32 c
  let (world_velocity_x, c) ← readF32 c
  let (world_velocity_y, c) ← readF32 c
  let (world_velocity_z, c) ← readF32 c
  let (world_forward_dir_x, c) ← readI16 c
  let (world_forward_dir_y, c) ← readI16 c
  let (world_forward_dir_z, c) ← readI16 c
  let (world_right_dir_x, c) ← readI16 c
  let (world_right_dir_y, c) ← readI16 c
  let (world_right_dir_z, c) ← readI16 c
  let (g_force_lateral, c) ← readF32 c
  let (g_force_longitudinal, c) ← readF32 c
  let (g_force_vertical, c) ← readF32 c
  let (yaw, c) ← readF32 c
  let (pitch, c) ← readF32 c
  let (roll, c) ← readF32 c
  pure ({ world_position_x, world_position_y, world_position_z,
          world_velocity_x, world_velocity_y, world_velocity_z,
          world_forward_dir_x, world_forward_dir_y, world_forward_dir_z,
          world_right_dir_x, world_right_dir_y, world_right_dir_z,
          g_force_lateral, g_force_longitudinal, g_force_vertical,
          yaw, pitch, roll }, c)

/-- Value of one decoded motion record in terms of byte offsets into the
buffer: six floats at offsets 0,4,…,20, six signed 16-bit values at offsets
24,26,…,34, six floats at offsets 36,40,…,56 (60 bytes in total). -/
def motionDataAt (data : List Nat) (i : Nat) : MotionData :=
  { world_position_x := le32At data i
    world_position_y := le32At data (i + 4)
    world_position_z := le32At data (i + 8)
    world_velocity_x := le32At data (i + 12)
    world_velocity_y := le32At data (i + 16)
    world_velocity_z := le32At data (i + 20)
    world_forward_dir_x := i16At data (i + 24)
    world_forward_dir_y := i16At data (i + 26)
    world_forward_dir_z := i16At data (i + 28)
    world_right_dir_x := i16At data (i + 30)
    world_right_dir_y := i16At data (i + 32)
    world_right_dir_z := i16At data (i + 34)
    g_force_lateral := le32At data (i + 36)
    g_force_longitudinal := le32At data (i + 40)
    g_force_vertical := le32At data (i + 44)
    yaw := le32At data (i + 48)
    pitch := le32At data (i + 52)
    roll := le32At data (i + 56) }

theorem motionData_new_char (data : List Nat) (pos : Nat)
    (h : pos + 60 ≤ data.length) :
    MotionData.new ⟨data, pos⟩ =
      ok (motionDataAt data pos, ⟨data, pos + 60⟩) := by
  simp only [MotionData.new, monad_bind_eq_bind]
  rw [readF32_ok data pos (by omega)]
  simp only [bind_ok]
  rw [readF32_ok data (pos + 4) (by omega)]
  simp only [bind_ok]
  rw [readF32_ok data (pos + 8) (by omega)]
  simp only [bind_ok]
  rw [readF32_ok data (pos + 12) (by omega)]
  simp only [bind_ok]
  rw [readF32_ok data (pos + 16) (by omega)]
  simp only [bind_ok]
  rw [readF32_ok data (pos + 20) (by omega)]
  simp only [bind_ok]
  rw [readI16_ok data (pos + 24) (by omega)]
  simp only [bind_ok]
  rw [readI16_ok data (pos + 26) (by omega)]
  simp only [bind_ok]
  rw [readI16_ok data (pos + 28) (by omega)]
  simp only [bind_ok]
  rw [readI16_ok data (pos + 30) (by omega)]
  simp only [bind_ok]
  rw [readI16_ok data (pos + 32) (by omega)]
  simp only [bind_ok]
  rw [readI16_ok data (pos + 34) (by omega)]
  simp only [bind_ok]
  rw [readF32_ok data (pos + 36) (by omega)]
  simp only [bind_ok]
  rw [readF32_ok data (pos + 40) (by omega)]
  simp only [bind_ok]
  rw [readF32_ok data (pos + 44) (by omega)]
  simp only [bind_ok]
  rw [readF32_ok data (pos + 48) (by omega)]
  simp only [bind_ok]
  rw [readF32_ok data (pos + 52) (by omega)]
  simp only [bind_ok]
  rw [readF32_ok data (pos + 56) (by omega)]
  simp only [bind_ok]
  norm_num [motionDataAt, pure_eq_ok]
theorem motionData_new_panicked (data : List Nat) (pos : Nat)
    (h : data.length < pos + 60) :
    MotionData.new ⟨data, pos⟩ = panicked := by
  simp only [MotionData.new, monad_bind_eq_bind]
  by_cases h0 : pos + 4 ≤ data.length
  · rw [readF32_ok data pos h0]
    simp only [bind_ok]
    by_cases h1 : pos + 8 ≤ data.length
    · rw [readF32_ok data (pos + 4) h1]
      simp only [bind_ok]
      by_cases h2 : pos + 12 ≤ data.length
      · rw [readF32_ok data (pos + 8) h2]
        simp only [bind_ok]
        by_cases h3 : pos + 16 ≤ data.length
        · rw [readF32_ok data (pos + 12) h3]
          simp only [bind_ok]
          by_cases h4 : pos + 20 ≤ data.length
          · rw [readF32_ok data (pos + 16) h4]
            simp only [bind_ok]
            by_cases h5 : pos + 24 ≤ data.length
            · rw [readF32_ok data (pos + 20) h5]
              simp only [bind_ok]
              by_cases h6 : pos + 26 ≤ data.length
              · rw [readI16_ok data (pos + 24) h6]
                simp only [bind_ok]
                by_cases h7 : pos + 28 ≤ data.length
                · rw [readI16_ok data (pos + 26) h7]
                  simp only [bind_ok]
                  by_cases h8 : pos + 30 ≤ data.length
                  · rw [readI16_ok data (pos + 28) h8]
                    simp only [bind_ok]
                    by_cases h9 : pos + 32 ≤ data.length
                    · rw [readI16_ok data (pos + 30) h9]
                      simp only [bind_ok]
                      by_cases h10 : pos + 34 ≤ data.length
                      · rw [readI16_ok data (pos + 32) h10]
                        simp only [bind_ok]
                        by_cases h11 : pos + 36 ≤ data.length
                        · rw [readI16_ok data (pos + 34) h11]
                          simp only [bind_ok]
                          by_cases h12 : pos + 40 ≤ data.length
                          · rw [readF32_ok data (pos + 36) h12]
                            simp only [bind_ok]
                            by_cases h13 : pos + 44 ≤ data.length
                            · rw [readF32_ok data (pos + 40) h13]
                              simp only [bind_ok]
                              by_cases h14 : pos + 48 ≤ data.length
                              · rw [readF32_ok data (pos + 44) h14]
                                simp only [bind_ok]
                                by_cases h15 : pos + 52 ≤ data.length
                                · rw [readF32_ok data (pos + 48) h15]
                                  simp only [bind_ok]
                                  by_cases h16 : pos + 56 ≤ data.length
                                  · rw [readF32_ok data (pos + 52) h16]
                                    simp only [bind_ok]
                                    rw [readF32_panicked data (pos + 56) (by omega)]
                                    simp only [bind_panicked]
                                  · rw [readF32_panicked data (pos + 52) (by omega)]
                                    simp only [bind_panicked]
                                · rw [readF32_panicked data (pos + 48) (by omega)]
                                  simp only [bind_panicked]
                              · rw [readF32_panicked data (pos + 44) (by omega)]
                                simp only [bind_panicked]
                            · rw [readF32_panicked data (pos + 40) (by omega)]
                              simp only [bind_panicked]
                          · rw [readF32_panicked data (pos + 36) (by omega)]
                            simp only [bind_panicked]
                        · rw [readI16_panicked data (pos + 34) (by omega)]
                          simp only [bind_panicked]
                      · rw [readI16_panicked data (pos + 32) (by omega)]
                        simp only [bind_panicked]
                    · rw [readI16_panicked data (pos + 30) (by omega)]
                      simp only [bind_panicked]
                  · rw [readI16_panicked data (pos + 28) (by omega)]
                    simp only [bind_panicked]
                · rw [readI16_panicked data (pos + 26) (by omega)]
                  simp only [bind_panicked]
              · rw [readI16_panicked data (pos + 24) (by omega)]
                simp only [bind_panicked]
            · rw [readF32_panicked data (pos + 20) (by omega)]
              simp only [bind_panicked]
          · rw [readF32_panicked data (pos + 16) (by omega)]
            simp only [bind_panicked]
        · rw [readF32_panicked data (pos + 12) (by omega)]
          simp only [bind_panicked]
      · rw [readF32_panicked data (pos + 8) (by omega)]
        simp only [bind_panicked]
    · rw [readF32_panicked data (pos + 4) (by omega)]
      simp only [bind_panicked]
  · rw [readF32_panicked data pos (by omega)]
    simp only [bind_panicked]

/-- Model of the decode loop in `PacketMotionData::new` (motion.rs lines
181–185): `for _ in 0..20` pushes one `MotionData::new` result per
iteration, so entries appear in decode order (car-index order). -/
def decodeMotionList : Nat → ByteCursor → DecodeResult (List MotionData × ByteCursor)
  | 0, c => ok ([], c)
  | n + 1, c => do
    let (md, c) ← MotionData.new c
    let (rest, c) ← decodeMotionList n c
    pure (md :: rest, c)

theorem decodeMotionList_char (n : Nat) (data : List Nat) (pos : Nat)
    (h : pos + 60 * n ≤ data.length) :
    decodeMotionList n ⟨data, pos⟩ =
      ok ((List.range n).map (fun k => motionDataAt data (pos + 60 * k)),
        ⟨data, pos + 60 * n⟩) := by
  induction n generalizing pos with
  | zero => simp [decodeMotionList]
  | succ n ih =>
    simp only [decodeMotionList, monad_bind_eq_bind]
    rw [motionData_new_char data pos (by omega)]
    simp only [bind_ok]
    rw [ih (pos + 60) (by omega)]
    simp only [bind_ok, pure_eq_ok]
    have hc : pos + 60 + 60 * n = pos + 60 * (n + 1) := by ring
    have hl : (List.range (n + 1)).map (fun k => motionDataAt data (pos + 60 * k)) =
        motionDataAt data pos ::
          (List.range n).map (fun k => motionDataAt data (pos + 60 + 60 * k)) := by
      rw [List.range_succ_eq_map, List.map_cons, List.map_map]
      congr 1
      refine List.map_congr_left fun a _ => ?_
      simp only [Function.comp_apply]
      congr 1
      omega
    rw [hl, hc]

theorem decodeMotionList_panicked (n : Nat) (data : List Nat) (pos : Nat)
    (hn : 0 < n) (h : data.length < pos + 60 * n) :
    decodeMotionList n ⟨data, pos⟩ = panicked := by
  induction n generalizing pos with
  | zero => omega
  | succ n ih =>
    simp only [decodeMotionList, monad_bind_eq_bind]
    by_cases h60 : pos + 60 ≤ data.length
    · rw [motionData_new_char data pos h60]
      simp only [bind_ok]
      rcases Nat.eq_zero_or_pos n with hz | hpos
      · subst hz; omega
      · rw [ih (pos + 60) hpos (by omega)]
        simp only [bind_panicked]
    · rw [motionData_new_panicked data pos (by omega)]
      simp only [bind_panicked]

/-- Modelled from the spec: the `WheelData` generic
(src/f1-telemetry/src/packet/generic.rs) is not part of the snapshot under
src/. Per the spec it is a fixed 4-element record keyed by wheel position
in the canonical order RL, RR, FL, FR, with `WheelData::new` taking the
four values positionally in that order (the order is also documented in
the motion.rs doc comment for the wheel arrays). -/
structure WheelData (α : Type) where
  rear_left : α
  rear_right : α
  front_left : α
  front_right : α
  deriving DecidableEq, Repr

/-- Constructor taking the four wheel values in order RL, RR, FL, FR. -/
def WheelData.new (rl rr fl fr : α) : WheelData α :=
  ⟨rl, rr, fl, fr⟩

/-- Wheel-quad decode step as written five times inside
`PacketMotionData::new` (motion.rs lines 187–220): four unwrapped `f32`
reads passed positionally to `WheelData::new`; Rust evaluates the four
argument expressions left to right. -/
def readWheelData (c : ByteCursor) : DecodeResult (WheelData Nat × ByteCursor) := do
  let (rl, c) ← readF32 c
  let (rr, c) ← readF32 c
  let (fl, c) ← readF32 c
  let (fr, c) ← readF32 c
  pure (WheelData.new rl rr fl fr, c)

/-- Value of a decoded wheel quad in terms of byte offsets: RL at offset 0,
RR at 4, FL at 8, FR at 12. -/
def wheelDataAt (data : List Nat) (i : Nat) : WheelData Nat :=
  ⟨le32At data i, le32At data (i + 4), le32At data (i + 8), le32At data (i + 12)⟩

theorem readWheelData_char (data : List Nat) (pos : Nat)
    (h : pos + 16 ≤ data.length) :
    readWheelData ⟨data, pos⟩ = ok (wheelDataAt data pos, ⟨data, pos + 16⟩) := by
  simp only [readWheelData, monad_bind_eq_bind]
  rw [readF32_ok data pos (by omega)]
  simp only [bind_ok]
  rw [readF32_ok data (pos + 4) (by omega)]
  simp only [bind_ok]
  rw [readF32_ok data (pos + 4 + 4) (by omega)]
  simp only [bind_ok]
  rw [readF32_ok data (pos + 4 + 4 + 4) (by omega)]
  simp only [bind_ok]
  norm_num [wheelDataAt, WheelData.new, pure_eq_ok]

theorem readWheelData_panicked (data : List Nat) (pos : Nat)
    (h : data.length < pos + 16) :
    readWheelData ⟨data, pos⟩ = panicked := by
  simp only [readWheelData, monad_bind_eq_bind]
  by_cases h0 : pos + 4 ≤ data.length
  · rw [readF32_ok data pos h0]
    simp only [bind_ok]
    by_cases h1 : pos + 8 ≤ data.length
    · rw [readF32_ok data (pos + 4) (by omega)]
      simp only [bind_ok]
      by_cases h2 : pos + 12 ≤ data.length
      · rw [readF32_ok data (pos + 4 + 4) (by omega)]
        simp only [bind_ok]
        rw [readF32_panicked data (pos + 4 + 4 + 4) (by omega)]
        simp only [bind_panicked]
      · rw [readF32_panicked data (pos + 4 + 4) (by omega)]
        simp only [bind_panicked]
    · rw [readF32_panicked data (pos + 4) (by omega)]
      simp only [bind_panicked]
  · rw [readF32_panicked data pos (by omega)]
    simp only [bind_panicked]

/-- Modelled from the spec: the spec-level read primitives of the
ByteCursor component (spec §4.1), used by the header decoder
(src/f1-telemetry/src/packet/header.rs is not part of the snapshot under
src/): a read of a given width fails with `TruncatedData` when fewer bytes
remain than the requested width, and otherwise yields the little-endian
value and advances the cursor. -/
def readU8T (c : ByteCursor) : DecodeResult (Nat × ByteCursor) :=
  if c.pos + 1 ≤ c.data.length then
    ok (byteAt c.data c.pos, ⟨c.data, c.pos + 1⟩)
  else err ⟨"TruncatedData"⟩

/-- Spec-level 16-bit little-endian read; see `readU8T`. -/
def readU16T (c : ByteCursor) : DecodeResult (Nat × ByteCursor) :=
  if c.pos + 2 ≤ c.data.length then
    ok (le16At c.data c.pos, ⟨c.data, c.pos + 2⟩)
  else err ⟨"TruncatedData"⟩

/-- Spec-level 32-bit little-endian read; see `readU8T`. -/
def readU32T (c : ByteCursor) : DecodeResult (Nat × ByteCursor) :=
  if c.pos + 4 ≤ c.data.length then
    ok (le32At c.data c.pos, ⟨c.data, c.pos + 4⟩)
  else err ⟨"TruncatedData"⟩

/-- Spec-level 64-bit little-endian read; see `readU8T`. -/
def readU64T (c : ByteCursor) : DecodeResult (Nat × ByteCursor) :=
  if c.pos + 8 ≤ c.data.length then
    ok (le64At c.data c.pos, ⟨c.data, c.pos + 8⟩)
  else err ⟨"TruncatedData"⟩

/-- Modelled from the spec: the common packet header (spec §3), as decoded
by the header decoder that is not part of the snapshot under src/. Fields
in declared order: format version, game major/minor version, packet type
identifier, session UID, session time (a float, carried as its raw 32-bit
pattern), frame identifier, player car index, secondary player car index.
With the little-endian widths used below the header occupies 23 bytes, so
the documented 1343-byte motion packet is header plus 1320 payload bytes. -/
structure PacketHeader where
  packet_format : Nat
  game_major_version : Nat
  game_minor_version : Nat
  packet_id : Nat
  session_uid : Nat
  session_time : Nat
  frame_identifier : Nat
  player_car_index : Nat
  secondary_player_car_index : Nat
  deriving DecidableEq, Repr

/-- Width in bytes of the common header. -/
def headerSize : Nat := 23

/-- Header value in terms of byte offsets into the buffer. -/
def headerAt (data : List Nat) (i : Nat) : PacketHeader :=
  { packet_format := le16At data i
    game_major_version := byteAt data (i + 2)
    game_minor_version := byteAt data (i + 3)
    packet_id := byteAt data (i + 4)
    session_uid := le64At data (i + 5)
    session_time := le32At data (i + 13)
    frame_identifier := le32At data (i + 17)
    player_car_index := byteAt data (i + 21)
    secondary_player_car_index := byteAt data (i + 22) }

/-- Modelled from the spec: the header decoder (spec §4.2) reads the fixed
header fields in order, fails with `TruncatedData` when the buffer is
shorter than the header width, and fails with `UnsupportedFormatVersion`
when the declared format version is not one this decoder set understands
(the 2019 format, the one the decoders of this snapshot implement). -/
def PacketHeader.new (c : ByteCursor) : DecodeResult (PacketHeader × ByteCursor) := do
  let (packet_format, c) ← readU16T c
  if packet_format = 2019 then do
    let (game_major_version, c) ← readU8T c
    let (game_minor_version, c) ← readU8T c
    let (packet_id, c) ← readU8T c
    let (session_uid, c) ← readU64T c
    let (session_time, c) ← readU32T c
    let (frame_identifier, c) ← readU32T c
    let (player_car_index, c) ← readU8T c
    let (secondary_player_car_index, c) ← readU8T c
    pure ({ packet_format, game_major_version, game_minor_version,
            packet_id, session_uid, session_time, frame_identifier,
            player_car_index, secondary_player_car_index }, c)
  else err ⟨"UnsupportedFormatVersion"⟩

theorem readU8T_ok (data : List Nat) (pos : Nat) (h : pos + 1 ≤ data.length) :
    readU8T ⟨data, pos⟩ = ok (byteAt data pos, ⟨data, pos + 1⟩) := by
  simp [readU8T, h]

theorem readU8T_err (data : List Nat) (pos : Nat) (h : data.length < pos + 1) :
    readU8T ⟨data, pos⟩ = err ⟨"TruncatedData"⟩ := by
  rw [readU8T, if_neg (by simp; omega)]

theorem readU16T_ok (data : List Nat) (pos : Nat) (h : pos + 2 ≤ data.length) :
    readU16T ⟨data, pos⟩ = ok (le16At data pos, ⟨data, pos + 2⟩) := by
  simp [readU16T, h]

theorem readU16T_err (data : List Nat) (pos : Nat) (h : data.length < pos + 2) :
    readU16T ⟨data, pos⟩ = err ⟨"TruncatedData"⟩ := by
  rw [readU16T, if_neg (by simp; omega)]

theorem readU32T_ok (data : List Nat) (pos : Nat) (h : pos + 4 ≤ data.length) :
    readU32T ⟨data, pos⟩ = ok (le32At data pos, ⟨data, pos + 4⟩) := by
  simp [readU32T, h]

theorem readU32T_err (data : List Nat) (pos : Nat) (h : data.length < pos + 4) :
    readU32T ⟨data, pos⟩ = err ⟨"TruncatedData"⟩ := by
  rw [readU32T, if_neg (by simp; omega)]

theorem readU64T_ok (data : List Nat) (pos : Nat) (h : pos + 8 ≤ data.length) :
    readU64T ⟨data, pos⟩ = ok (le64At data pos, ⟨data, pos + 8⟩) := by
  simp [readU64T, h]

theorem readU64T_err (data : List Nat) (pos : Nat) (h : data.length < pos + 8) :
    readU64T ⟨data, pos⟩ = err ⟨"TruncatedData"⟩ := by
  rw [readU64T, if_neg (by simp; omega)]

theorem header_new_char (data : List Nat) (pos : Nat)
    (h : pos + 23 ≤ data.length) (hf : le16At data pos = 2019) :
    PacketHeader.new ⟨data, pos⟩ = ok (headerAt data pos, ⟨data, pos + 23⟩) := by
  simp only [PacketHeader.new, monad_bind_eq_bind]
  rw [readU16T_ok data pos (by omega)]
  simp only [bind_ok]
  rw [if_pos hf]
  rw [readU8T_ok data (pos + 2) (by omega)]
  simp only [bind_ok]
  rw [readU8T_ok data (pos + 2 + 1) (by omega)]
  simp only [bind_ok]
  rw [readU8T_ok data (pos + 2 + 1 + 1) (by omega)]
  simp only [bind_ok]
  rw [readU64T_ok data (pos + 2 + 1 + 1 + 1) (by omega)]
  simp only [bind_ok]
  rw [readU32T_ok data (pos + 2 + 1 + 1 + 1 + 8) (by omega)]
  simp only [bind_ok]
  rw [readU32T_ok data (pos + 2 + 1 + 1 + 1 + 8 + 4) (by omega)]
  simp only [bind_ok]
  rw [readU8T_ok data (pos + 2 + 1 + 1 + 1 + 8 + 4 + 4) (by omega)]
  simp only [bind_ok]
  rw [readU8T_ok data (pos + 2 + 1 + 1 + 1 + 8 + 4 + 4 + 1) (by omega)]
  simp only [bind_ok]
  norm_num [headerAt, pure_eq_ok, hf]

theorem header_new_cases (data : List Nat) (pos : Nat) :
    (pos + 23 ≤ data.length ∧ le16At data pos = 2019 ∧
      PacketHeader.new ⟨data, pos⟩ = ok (headerAt data pos, ⟨data, pos + 23⟩))
    ∨ ∃ e, PacketHeader.new ⟨data, pos⟩ = err e := by
  by_cases h23 : pos + 23 ≤ data.length
  · by_cases hf : le16At data pos = 2019
    · exact Or.inl ⟨h23, hf, header_new_char data pos h23 hf⟩
    · refine Or.inr ⟨⟨"UnsupportedFormatVersion"⟩, ?_⟩
      simp only [PacketHeader.new, monad_bind_eq_bind]
      rw [readU16T_ok data pos (by omega)]
      simp only [bind_ok]
      rw [if_neg hf]
  · by_cases h2 : pos + 2 ≤ data.length
    · refine Or.inr ?_
      simp only [PacketHeader.new, monad_bind_eq_bind]
      rw [readU16T_ok data pos h2]
      simp only [bind_ok]
      by_cases hf : le16At data pos = 2019
      · rw [if_pos hf]
        by_cases g0 : pos + 3 ≤ data.length
        · rw [readU8T_ok data (pos + 2) (by omega)]
          simp only [bind_ok]
          by_cases g1 : pos + 4 ≤ data.length
          · rw [readU8T_ok data (pos + 2 + 1) (by omega)]
            simp only [bind_ok]
            by_cases g2 : pos + 5 ≤ data.length
            · rw [readU8T_ok data (pos + 2 + 1 + 1) (by omega)]
              simp only [bind_ok]
              by_cases g3 : pos + 13 ≤ data.length
              · rw [readU64T_ok data (pos + 2 + 1 + 1 + 1) (by omega)]
                simp only [bind_ok]
                by_cases g4 : pos + 17 ≤ data.length
                · rw [readU32T_ok data (pos + 2 + 1 + 1 + 1 + 8) (by omega)]
                  simp only [bind_ok]
                  by_cases g5 : pos + 21 ≤ data.length
                  · rw [readU32T_ok data (pos + 2 + 1 + 1 + 1 + 8 + 4) (by omega)]
                    simp only [bind_ok]
                    by_cases g6 : pos + 22 ≤ data.length
                    · rw [readU8T_ok data (pos + 2 + 1 + 1 + 1 + 8 + 4 + 4) (by omega)]
                      simp only [bind_ok]
                      rw [readU8T_err data (pos + 2 + 1 + 1 + 1 + 8 + 4 + 4 + 1) (by omega)]
                      exact ⟨⟨"TruncatedData"⟩, by simp only [bind_err]⟩
                    · rw [readU8T_err data (pos + 2 + 1 + 1 + 1 + 8 + 4 + 4) (by omega)]
                      exact ⟨⟨"TruncatedData"⟩, by simp only [bind_err]⟩
                  · rw [readU32T_err data (pos + 2 + 1 + 1 + 1 + 8 + 4) (by omega)]
                    exact ⟨⟨"TruncatedData"⟩, by simp only [bind_err]⟩
                · rw [readU32T_err data (pos + 2 + 1 + 1 + 1 + 8) (by omega)]
                  exact ⟨⟨"TruncatedData"⟩, by simp only [bind_err]⟩
              · rw [readU64T_err data (pos + 2 + 1 + 1 + 1) (by omega)]
                exact ⟨⟨"TruncatedData"⟩, by simp only [bind_err]⟩
            · rw [readU8T_err data (pos + 2 + 1 + 1) (by omega)]
              exact ⟨⟨"TruncatedData"⟩, by simp only [bind_err]⟩
          · rw [readU8T_err data (pos + 2 + 1) (by omega)]
            exact ⟨⟨"TruncatedData"⟩, by simp only [bind_err]⟩
        · rw [readU8T_err data (pos + 2) (by omega)]
          exact ⟨⟨"TruncatedData"⟩, by simp only [bind_err]⟩
      · rw [if_neg hf]
        exact ⟨_, rfl⟩
    · refine Or.inr ⟨⟨"TruncatedData"⟩, ?_⟩
      simp only [PacketHeader.new, monad_bind_eq_bind]
      rw [readU16T_err data pos (by omega)]
      simp only [bind_err]

/-- Decoded motion packet (motion.rs, `struct PacketMotionData`): the
header, the 20-element per-car motion data list, and the player-car-only
extras — five wheel quads and ten scalar floats (carried as raw 32-bit
patterns). -/
structure PacketMotionData where
  header : PacketHeader
  motion_data : List MotionData
  suspension_position : WheelData Nat
  suspension_velocity : WheelData Nat
  suspension_acceleration : WheelData Nat
  wheel_speed : WheelData Nat
  wheel_slip : WheelData Nat
  local_velocity_x : Nat
  local_velocity_y : Nat
  local_velocity_z : Nat
  angular_velocity_x : Nat
  angular_velocity_y : Nat
  angular_velocity_z : Nat
  angular_acceleration_x : Nat
  angular_acceleration_y : Nat
  angular_acceleration_z : Nat
  front_wheels_angle : Nat
  deriving DecidableEq, Repr

/-- Model of `PacketMotionData::new` (motion.rs lines 177–252): the
already-decoded header is taken as an argument and stored; the payload is
twenty `MotionData::new` invocations in index order, five wheel quads, and
ten unwrapped scalar `f32` reads, assembled in field order. -/
def PacketMotionData.new (c : ByteCursor) (header : PacketHeader) :
    DecodeResult (PacketMotionData × ByteCursor) := do
  let (motion_data, c) ← decodeMotionList 20 c
  let (suspension_position, c) ← readWheelData c
  let (suspension_velocity, c) ← readWheelData c
  let (suspension_acceleration, c) ← readWheelData c
  let (wheel_speed, c) ← readWheelData c
  let (wheel_slip, c) ← readWheelData c
  let (local_velocity_x, c) ← readF32 c
  let (local_velocity_y, c) ← readF32 c
  let (local_velocity_z, c) ← readF32 c
  let (angular_velocity_x, c) ← readF32 c
  let (angular_velocity_y, c) ← readF32 c
  let (angular_velocity_z, c) ← readF32 c
  let (angular_acceleration_x, c) ← readF32 c
  let (angular_acceleration_y, c) ← readF32 c
  let (angular_acceleration_z, c) ← readF32 c
  let (front_wheels_angle, c) ← readF32 c
  pure ({ header, motion_data,
          suspension_position, suspension_velocity, suspension_acceleration,
          wheel_speed, wheel_slip,
          local_velocity_x, local_velocity_y, local_velocity_z,
          angular_velocity_x, angular_velocity_y, angular_velocity_z,
          angular_acceleration_x, angular_acceleration_y, angular_acceleration_z,
          front_wheels_angle }, c)

/-- Value of a decoded motion packet in terms of byte offsets: the twenty
60-byte motion records at offsets 0,60,…,1140, the five 16-byte wheel
quads at 1200,1216,1232,1248,1264, and the ten scalar floats at
1280,1284,…,1316 (1320 payload bytes in total). -/
def packetMotionAt (data : List Nat) (i : Nat) (h : PacketHeader) :
    PacketMotionData :=
  { header := h
    motion_data := (List.range 20).map fun k => motionDataAt data (i + 60 * k)
    suspension_position := wheelDataAt data (i + 1200)
    suspension_velocity := wheelDataAt data (i + 1216)
    suspension_acceleration := wheelDataAt data (i + 1232)
    wheel_speed := wheelDataAt data (i + 1248)
    wheel_slip := wheelDataAt data (i + 1264)
    local_velocity_x := le32At data (i + 1280)
    local_velocity_y := le32At data (i + 1284)
    local_velocity_z := le32At data (i + 1288)
    angular_velocity_x := le32At data (i + 1292)
    angular_velocity_y := le32At data (i + 1296)
    angular_velocity_z := le32At data (i + 1300)
    angular_acceleration_x := le32At data (i + 1304)
    angular_acceleration_y := le32At data (i + 1308)
    angular_acceleration_z := le32At data (i + 1312)
    front_wheels_angle := le32At data (i + 1316) }

theorem packetMotionData_new_char (data : List Nat) (pos : Nat)
    (h : pos + 1320 ≤ data.length) (hd : PacketHeader) :
    PacketMotionData.new ⟨data, pos⟩ hd =
      ok (packetMotionAt data pos hd, ⟨data, pos + 1320⟩) := by
  simp only [PacketMotionData.new, monad_bind_eq_bind]
  rw [decodeMotionList_char 20 data pos (by omega)]
  simp only [bind_ok]
  rw [readWheelData_char data (pos + 60 * 20) (by omega)]
  simp only [bind_ok]
  rw [readWheelData_char data (pos + 60 * 20 + 16) (by omega)]
  simp only [bind_ok]
  rw [readWheelData_char data (pos + 60 * 20 + 16 + 16) (by omega)]
  simp only [bind_ok]
  rw [readWheelData_char data (pos + 60 * 20 + 16 + 16 + 16) (by omega)]
  simp only [bind_ok]
  rw [readWheelData_char data (pos + 60 * 20 + 16 + 16 + 16 + 16) (by omega)]
  simp only [bind_ok]
  rw [readF32_ok data (pos + 60 * 20 + 16 + 16 + 16 + 16 + 16) (by omega)]
  simp only [bind_ok]
  rw [readF32_ok data (pos + 60 * 20 + 16 + 16 + 16 + 16 + 16 + 4) (by omega)]
  simp only [bind_ok]
  rw [readF32_ok data (pos + 60 * 20 + 16 + 16 + 16 + 16 + 16 + 4 + 4) (by omega)]
  simp only [bind_ok]
  rw [readF32_ok data (pos + 60 * 20 + 16 + 16 + 16 + 16 + 16 + 4 + 4 + 4) (by omega)]
  simp only [bind_ok]
  rw [readF32_ok data (pos + 60 * 20 + 16 + 16 + 16 + 16 + 16 + 4 + 4 + 4 + 4) (by omega)]
  simp only [bind_ok]
  rw [readF32_ok data (pos + 60 * 20 + 16 + 16 + 16 + 16 + 16 + 4 + 4 + 4 + 4 + 4) (by omega)]
  simp only [bind_ok]
  rw [readF32_ok data (pos + 60 * 20 + 16 + 16 + 16 + 16 + 16 + 4 + 4 + 4 + 4 + 4 + 4) (by omega)]
  simp only [bind_ok]
  rw [readF32_ok data (pos + 60 * 20 + 16 + 16 + 16 + 16 + 16 + 4 + 4 + 4 + 4 + 4 + 4 + 4) (by omega)]
  simp only [bind_ok]
  rw [readF32_ok data (pos + 60 * 20 + 16 + 16 + 16 + 16 + 16 + 4 + 4 + 4 + 4 + 4 + 4 + 4 + 4) (by omega)]
  simp only [bind_ok]
  rw [readF32_ok data (pos + 60 * 20 + 16 + 16 + 16 + 16 + 16 + 4 + 4 + 4 + 4 + 4 + 4 + 4 + 4 + 4) (by omega)]
  simp only [bind_ok]
  norm_num [packetMotionAt, pure_eq_ok]

theorem packetMotionData_new_panicked (data : List Nat) (pos : Nat)
    (h : data.length < pos + 1320) (hd : PacketHeader) :
    PacketMotionData.new ⟨data, pos⟩ hd = panicked := by
  simp only [PacketMotionData.new, monad_bind_eq_bind]
  by_cases hml : pos + 1200 ≤ data.length
  · rw [decodeMotionList_char 20 data pos (by omega)]
    simp only [bind_ok]
    by_cases k0 : pos + 1216 ≤ data.length
    · rw [readWheelData_char data (pos + 60 * 20) (by omega)]
      simp only [bind_ok]
      by_cases k1 : pos + 1232 ≤ data.length
      · rw [readWheelData_char data (pos + 60 * 20 + 16) (by omega)]
        simp only [bind_ok]
        by_cases k2 : pos + 1248 ≤ data.length
        · rw [readWheelData_char data (pos + 60 * 20 + 16 + 16) (by omega)]
          simp only [bind_ok]
          by_cases k3 : pos + 1264 ≤ data.length
          · rw [readWheelData_char data (pos + 60 * 20 + 16 + 16 + 16) (by omega)]
            simp only [bind_ok]
            by_cases k4 : pos + 1280 ≤ data.length
            · rw [readWheelData_char data (pos + 60 * 20 + 16 + 16 + 16 + 16) (by omega)]
              simp only [bind_ok]
              by_cases k5 : pos + 1284 ≤ data.length
              · rw [readF32_ok data (pos + 60 * 20 + 16 + 16 + 16 + 16 + 16) (by omega)]
                simp only [bind_ok]
                by_cases k6 : pos + 1288 ≤ data.length
                · rw [readF32_ok data (pos + 60 * 20 + 16 + 16 + 16 + 16 + 16 + 4) (by omega)]
                  simp only [bind_ok]
                  by_cases k7 : pos + 1292 ≤ data.length
                  · rw [readF32_ok data (pos + 60 * 20 + 16 + 16 + 16 + 16 + 16 + 4 + 4) (by omega)]
                    simp only [bind_ok]
                    by_cases k8 : pos + 1296 ≤ data.length
                    · rw [readF32_ok data (pos + 60 * 20 + 16 + 16 + 16 + 16 + 16 + 4 + 4 + 4) (by omega)]
                      simp only [bind_ok]
                      by_cases k9 : pos + 1300 ≤ data.length
                      · rw [readF32_ok data (pos + 60 * 20 + 16 + 16 + 16 + 16 + 16 + 4 + 4 + 4 + 4) (by omega)]
                        simp only [bind_ok]
                        by_cases k10 : pos + 1304 ≤ data.length
                        · rw [readF32_ok data (pos + 60 * 20 + 16 + 16 + 16 + 16 + 16 + 4 + 4 + 4 + 4 + 4) (by omega)]
                          simp only [bind_ok]
                          by_cases k11 : pos + 1308 ≤ data.length
                          · rw [readF32_ok data (pos + 60 * 20 + 16 + 16 + 16 + 16 + 16 + 4 + 4 + 4 + 4 + 4 + 4) (by omega)]
                            simp only [bind_ok]
                            by_cases k12 : pos + 1312 ≤ data.length
                            · rw [readF32_ok data (pos + 60 * 20 + 16 + 16 + 16 + 16 + 16 + 4 + 4 + 4 + 4 + 4 + 4 + 4) (by omega)]
                              simp only [bind_ok]
                              by_cases k13 : pos + 1316 ≤ data.length
                              · rw [readF32_ok data (pos + 60 * 20 + 16 + 16 + 16 + 16 + 16 + 4 + 4 + 4 + 4 + 4 + 4 + 4 + 4) (by omega)]
                                simp only [bind_ok]
                                rw [readF32_panicked data (pos + 60 * 20 + 16 + 16 + 16 + 16 + 16 + 4 + 4 + 4 + 4 + 4 + 4 + 4 + 4 + 4) (by omega)]
                                simp only [bind_panicked]
                              · rw [readF32_panicked data (pos + 60 * 20 + 16 + 16 + 16 + 16 + 16 + 4 + 4 + 4 + 4 + 4 + 4 + 4 + 4) (by omega)]
                                simp only [bind_panicked]
                            · rw [readF32_panicked data (pos + 60 * 20 + 16 + 16 + 16 + 16 + 16 + 4 + 4 + 4 + 4 + 4 + 4 + 4) (by omega)]
                              simp only [bind_panicked]
                          · rw [readF32_panicked data (pos + 60 * 20 + 16 + 16 + 16 + 16 + 16 + 4 + 4 + 4 + 4 + 4 + 4) (by omega)]
                            simp only [bind_panicked]
                        · rw [readF32_panicked data (pos + 60 * 20 + 16 + 16 + 16 + 16 + 16 + 4 + 4 + 4 + 4 + 4) (by omega)]
                          simp only [bind_panicked]
                      · rw [readF32_panicked data (pos + 60 * 20 + 16 + 16 + 16 + 16 + 16 + 4 + 4 + 4 + 4) (by omega)]
                        simp only [bind_panicked]
                    · rw [readF32_panicked data (pos + 60 * 20 + 16 + 16 + 16 + 16 + 16 + 4 + 4 + 4) (by omega)]
                      simp only [bind_panicked]
                  · rw [readF32_panicked data (pos + 60 * 20 + 16 + 16 + 16 + 16 + 16 + 4 + 4) (by omega)]
                    simp only [bind_panicked]
                · rw [readF32_panicked data (pos + 60 * 20 + 16 + 16 + 16 + 16 + 16 + 4) (by omega)]
                  simp only [bind_panicked]
              · rw [readF32_panicked data (pos + 60 * 20 + 16 + 16 + 16 + 16 + 16) (by omega)]
                simp only [bind_panicked]
            · rw [readWheelData_panicked data (pos + 60 * 20 + 16 + 16 + 16 + 16) (by omega)]
              simp only [bind_panicked]
          · rw [readWheelData_panicked data (pos + 60 * 20 + 16 + 16 + 16) (by omega)]
            simp only [bind_panicked]
        · rw [readWheelData_panicked data (pos + 60 * 20 + 16 + 16) (by omega)]
          simp only [bind_panicked]
      · rw [readWheelData_panicked data (pos + 60 * 20 + 16) (by omega)]
        simp only [bind_panicked]
    · rw [readWheelData_panicked data (pos + 60 * 20) (by omega)]
      simp only [bind_panicked]
  · rw [decodeMotionList_panicked 20 data pos (by omega) (by omega)]
    simp only [bind_panicked]

/-- Tagged union over the packet kinds this snapshot's decoders produce
(spec §3); the motion packet is the one whose decoder is part of the
snapshot. -/
inductive Packet where
  | Motion : PacketMotionData → Packet
  deriving DecidableEq, Repr

/-- Documented byte size of a motion datagram: the motion.rs doc comment
declares `Size: 1343 bytes` (23-byte header plus 1320 payload bytes). -/
def motionPacketSize : Nat := 1343

/-- Modelled from the spec: `parse_packet` (the packet dispatcher in the
`packet` module, not part of the snapshot under src/), with the cursor it
threads made explicit in the result so byte consumption is visible. Per
the spec it decodes the header, requires the datagram's declared valid
length to exactly match the expected size for the declared packet type
(violation is a decode error, not a silent truncation), dispatches the
motion packet type identifier (0) to `PacketMotionData::new`, and fails
with `UnknownPacketType` for an unregistered identifier. -/
def parsePacketCursor (len : Nat) (buf : List Nat) :
    DecodeResult (Packet × ByteCursor) := do
  let (header, c) ← PacketHeader.new ⟨buf, 0⟩
  match header.packet_id with
  | 0 =>
    if len = motionPacketSize then do
      let (p, c) ← PacketMotionData.new c header
      pure (Packet.Motion p, c)
    else err ⟨"InvalidPacketSize"⟩
  | _ + 1 => err ⟨"UnknownPacketType"⟩

/-- Modelled from the spec: `parse_packet` as called from `Stream::next`
(lib.rs line 23), returning only the decoded packet. -/
def parsePacket (len : Nat) (buf : List Nat) : DecodeResult Packet :=
  match parsePacketCursor len buf with
  | ok (p, _) => ok p
  | err e => err e
  | panicked => panicked

/-- Kind of a socket error, after `std::io::ErrorKind`; only `WouldBlock`
is inspected by `Stream::next`. -/
inductive IoErrorKind where
  | wouldBlock
  | permissionDenied
  | connectionReset
  | timedOut
  | otherKind : String → IoErrorKind
  deriving DecidableEq, Repr

/-- Socket error as observed by `Stream::next`: its kind (compared against
`ErrorKind::WouldBlock`) and its `{:?}` debug rendering (interpolated into
the `UnpackError` message). -/
structure IoError where
  kind : IoErrorKind
  debugRepr : String
  deriving DecidableEq, Repr

/-- Outcome of `self.socket.recv(&mut buf)` in one `Stream::next` call:
either a received datagram or a socket error. -/
inductive RecvResult where
  | ok : List Nat → RecvResult
  | err : IoError → RecvResult
  deriving DecidableEq, Repr

/-- Number of bytes `recv` reports for a datagram: the datagram length,
capped by the 2048-byte receive buffer. -/
def recvLen (d : List Nat) : Nat := min d.length 2048

/-- Contents of the 2048-byte receive buffer (`let mut buf = [0; 2048]`)
after `recv` copies a datagram into it: the datagram bytes (truncated to
the buffer size), with the untouched zero bytes after them. -/
def recvBuffer (d : List Nat) : List Nat :=
  d.take 2048 ++ List.replicate (2048 - d.length) 0

/-- Model of `Stream::next` (lib.rs lines 19–35), as a function of the one
socket receive it performs: a received datagram is parsed from the receive
buffer (`Ok(Some(p))` on success, the `UnpackError` propagated otherwise);
a `WouldBlock` socket error yields `Ok(None)`; any other socket error is
turned into `UnpackError(format!("Error reading from socket: {:?}", e))`. -/
def streamNext (r : RecvResult) : DecodeResult (Option Packet) :=
  match r with
  | .ok d =>
    match parsePacket (recvLen d) (recvBuffer d) with
    | ok p => ok (some p)
    | err e => err e
    | panicked => panicked
  | .err e =>
    if e.kind = IoErrorKind.wouldBlock then ok none
    else err ⟨"Error reading from socket: " ++ e.debugRepr⟩

theorem recvBuffer_length (d : List Nat) : (recvBuffer d).length = 2048 := by
  simp [recvBuffer]
  omega

theorem parsePacketCursor_consumed (len : Nat) (buf : List Nat)
    (p : Packet) (c : ByteCursor)
    (h : parsePacketCursor len buf = ok (p, c)) :
    len = motionPacketSize ∧ c = ⟨buf, 1343⟩ := by
  unfold parsePacketCursor at h
  rcases header_new_cases buf 0 with ⟨h23, hf, hok⟩ | ⟨e, herr⟩
  · rw [hok] at h
    simp only [monad_bind_eq_bind, bind_ok] at h
    rcases hid : (headerAt buf 0).packet_id with _ | n
    · rw [hid] at h
      by_cases hlen : len = motionPacketSize
      · refine ⟨hlen, ?_⟩
        rw [if_pos hlen] at h
        by_cases hb : 23 + 1320 ≤ buf.length
        · rw [packetMotionData_new_char buf 23 hb (headerAt buf 0)] at h
          simp only [monad_bind_eq_bind, bind_ok, pure_eq_ok, ok.injEq,
            Prod.mk.injEq] at h
          exact h.2.symm
        · rw [packetMotionData_new_panicked buf 23 (by omega) (headerAt buf 0)] at h
          simp only [monad_bind_eq_bind, bind_panicked] at h
          cases h
      · rw [if_neg hlen] at h
        cases h
    · rw [hid] at h
      cases h
  · rw [herr] at h
    simp only [monad_bind_eq_bind, bind_err] at h
    cases h

theorem parsePacketCursor_no_panic (len : Nat) (buf : List Nat)
    (hb : 1343 ≤ buf.length) : parsePacketCursor len buf ≠ panicked := by
  unfold parsePacketCursor
  rcases header_new_cases buf 0 with ⟨h23, hf, hok⟩ | ⟨e, herr⟩
  · rw [hok]
    simp only [monad_bind_eq_bind, bind_ok]
    rcases hid : (headerAt buf 0).packet_id with _ | n
    · by_cases hlen : len = motionPacketSize
      · rw [if_pos hlen]
        rw [packetMotionData_new_char buf 23 (by omega) (headerAt buf 0)]
        simp only [monad_bind_eq_bind, bind_ok, pure_eq_ok]
        exact fun hx => by cases hx
      · rw [if_neg hlen]
        exact fun hx => by cases hx
    · exact fun hx => by cases hx
  · rw [herr]
    simp only [monad_bind_eq_bind, bind_err]
    exact fun hx => by cases hx

theorem parsePacket_no_panic (len : Nat) (buf : List Nat)
    (hb : 1343 ≤ buf.length) : parsePacket len buf ≠ panicked := by
  unfold parsePacket
  rcases hc : parsePacketCursor len buf with ⟨p, c⟩ | e | _
  · exact fun hx => by cases hx
  · exact fun hx => by cases hx
  · exact absurd hc (parsePacketCursor_no_panic len buf hb)

/-- Concrete 2048-byte receive-buffer contents for witnesses: format
version 2019 little-endian (bytes 227, 7), all other bytes zero — so the
packet type identifier at offset 4 is 0 (motion). -/
def wbuf : List Nat := 227 :: 7 :: List.replicate 2046 0

theorem wbuf_length : wbuf.length = 2048 := by
  unfold wbuf
  rw [List.length_cons, List.length_cons, List.length_replicate]

/-- Concrete header value used by witnesses. -/
def sampleHeader : PacketHeader := ⟨2019, 1, 22, 0, 0, 0, 0, 0, 0⟩

/-- Decode of the sample buffer as a 1343-byte motion datagram succeeds,
with the motion payload decoded from offset 23 and the cursor left at
1343. -/
theorem parse_wbuf_ok : parsePacketCursor 1343 wbuf =
    ok (Packet.Motion (packetMotionAt wbuf 23 (headerAt wbuf 0)), ⟨wbuf, 1343⟩) := by
  unfold parsePacketCursor
  rw [header_new_char wbuf 0 (by rw [wbuf_length]; omega) (by decide)]
  simp only [monad_bind_eq_bind, bind_ok]
  have hid : (headerAt wbuf 0).packet_id = 0 := by decide
  rw [hid]
  rw [if_pos (show (1343 : Nat) = motionPacketSize from rfl)]
  rw [packetMotionData_new_char wbuf 23 (by rw [wbuf_length]; omega) (headerAt wbuf 0)]
  simp only [monad_bind_eq_bind, bind_ok, pure_eq_ok]

/-- C1 counterexample: on an empty input buffer, `MotionData::new` does
not fail with a `TruncatedData` error — the unwrapped read panics, so the
claim that every decoder returns `TruncatedData` and never panics is false
at this input. -/
theorem spec_c1_counterexample :
    MotionData.new ⟨[], 0⟩ = panicked ∧
    MotionData.new ⟨[], 0⟩ ≠ err ⟨"TruncatedData"⟩ := by
  decide

/-- C1 (amended): when the input buffer holds fewer bytes than the
decoder's fixed required width (60 bytes per motion record, 1320 bytes for
the motion payload), the decoders of motion.rs panic via `.unwrap()` on
the failed read rather than returning a `TruncatedData` error; they never
yield a successful partial decode with substituted default values. -/
theorem spec_c1_short_buffer_panics (c : ByteCursor) (hd : PacketHeader) :
    (c.data.length < c.pos + 60 → MotionData.new c = panicked) ∧
    (c.data.length < c.pos + 1320 → PacketMotionData.new c hd = panicked) := by
  obtain ⟨data, pos⟩ := c
  exact ⟨fun h => motionData_new_panicked data pos h,
    fun h => packetMotionData_new_panicked data pos h hd⟩

theorem spec_c1_short_buffer_panics_witness :
    ([] : List Nat).length < 0 + 60 ∧ MotionData.new ⟨[], 0⟩ = panicked ∧
    ([] : List Nat).length < 0 + 1320 ∧
    PacketMotionData.new ⟨[], 0⟩ sampleHeader = panicked :=
  ⟨by decide, (spec_c1_short_buffer_panics ⟨[], 0⟩ sampleHeader).1 (by decide),
    by decide, (spec_c1_short_buffer_panics ⟨[], 0⟩ sampleHeader).2 (by decide)⟩

/-- C2: a successful decode consumes exactly the datagram's declared valid
length (1343 bytes for the motion packet type of the 2019 format), and a
declared length that does not match the expected size for the packet type
is a decode error, never a silent truncation or silent acceptance. -/
theorem spec_c2_exact_length (len : Nat) (buf : List Nat) :
    (∀ p c, parsePacketCursor len buf = ok (p, c) → c.pos = len) ∧
    (len ≠ motionPacketSize → ∀ p c, parsePacketCursor len buf ≠ ok (p, c)) := by
  constructor
  · intro p c h
    obtain ⟨hlen, hc⟩ := parsePacketCursor_consumed len buf p c h
    rw [hc, hlen]
    rfl
  · intro hne p c h
    exact hne (parsePacketCursor_consumed len buf p c h).1

theorem spec_c2_exact_length_witness :
    parsePacketCursor 1343 wbuf =
      ok (Packet.Motion (packetMotionAt wbuf 23 (headerAt wbuf 0)), ⟨wbuf, 1343⟩) ∧
    (⟨wbuf, 1343⟩ : ByteCursor).pos = 1343 ∧
    parsePacketCursor 1000 wbuf ≠
      ok (Packet.Motion (packetMotionAt wbuf 23 (headerAt wbuf 0)), ⟨wbuf, 1343⟩) :=
  ⟨parse_wbuf_ok,
    (spec_c2_exact_length 1343 wbuf).1 _ _ parse_wbuf_ok,
    (spec_c2_exact_length 1000 wbuf).2 (by decide) _ _⟩

/-- C3 counterexample: a `PermissionDenied` socket error is not propagated
as-is — `Stream::next` wraps it into an `UnpackError` whose message is the
debug rendering of the error behind the prefix "Error reading from
socket: ", so the caller does not receive the original error value. -/
theorem spec_c3_counterexample :
    streamNext (RecvResult.err ⟨IoErrorKind.permissionDenied, "PermissionDenied"⟩) =
      err ⟨"Error reading from socket: PermissionDenied"⟩ ∧
    streamNext (RecvResult.err ⟨IoErrorKind.permissionDenied, "PermissionDenied"⟩) ≠
      err ⟨"PermissionDenied"⟩ := by
  decide

/-- C3 (amended): a socket error whose kind is not `WouldBlock` is
propagated to the caller as an `UnpackError` whose message is
"Error reading from socket: " followed by the debug representation of the
socket error; the error is not swallowed, but the original typed error
kind survives only inside the message text, not unchanged as a value. -/
theorem spec_c3_socket_error_wrapped (e : IoError)
    (h : e.kind ≠ IoErrorKind.wouldBlock) :
    streamNext (RecvResult.err e) =
      err ⟨"Error reading from socket: " ++ e.debugRepr⟩ := by
  simp [streamNext, h]

theorem spec_c3_socket_error_wrapped_witness :
    (IoErrorKind.connectionReset ≠ IoErrorKind.wouldBlock) ∧
    streamNext (RecvResult.err ⟨IoErrorKind.connectionReset, "ConnectionReset"⟩) =
      err ⟨"Error reading from socket: " ++ "ConnectionReset"⟩ :=
  ⟨by decide,
    spec_c3_socket_error_wrapped ⟨IoErrorKind.connectionReset, "ConnectionReset"⟩
      (by decide)⟩

/-- C4: on a buffer holding a full motion payload, decoding succeeds and
yields a packet whose `motion_data` has exactly 20 entries; entry k is the
result of invoking the element decoder `MotionData::new` at byte offset
60·k (car-index order, one invocation per index); and the ten scalar float
extras equal the encoded little-endian IEEE754 bit patterns at offsets
1280,…,1316, read verbatim. -/
theorem spec_c4_motion_packet_layout (data : List Nat) (pos : Nat)
    (hd : PacketHeader) (h : pos + 1320 ≤ data.length) :
    ∃ p c, PacketMotionData.new ⟨data, pos⟩ hd = ok (p, c) ∧
      p.motion_data.length = 20 ∧
      (∀ k, k < 20 → ∃ md, MotionData.new ⟨data, pos + 60 * k⟩ =
          ok (md, ⟨data, pos + 60 * k + 60⟩) ∧ p.motion_data[k]? = some md) ∧
      p.local_velocity_x = le32At data (pos + 1280) ∧
      p.local_velocity_y = le32At data (pos + 1284) ∧
      p.local_velocity_z = le32At data (pos + 1288) ∧
      p.angular_velocity_x = le32At data (pos + 1292) ∧
      p.angular_velocity_y = le32At data (pos + 1296) ∧
      p.angular_velocity_z = le32At data (pos + 1300) ∧
      p.angular_acceleration_x = le32At data (pos + 1304) ∧
      p.angular_acceleration_y = le32At data (pos + 1308) ∧
      p.angular_acceleration_z = le32At data (pos + 1312) ∧
      p.front_wheels_angle = le32At data (pos + 1316) := by
  refine ⟨packetMotionAt data pos hd, ⟨data, pos + 1320⟩,
    packetMotionData_new_char data pos h hd, ?_, ?_,
    rfl, rfl, rfl, rfl, rfl, rfl, rfl, rfl, rfl, rfl⟩
  · simp [packetMotionAt]
  · intro k hk
    refine ⟨motionDataAt data (pos + 60 * k), ?_, ?_⟩
    · exact motionData_new_char data (pos + 60 * k) (by omega)
    · simp [packetMotionAt, List.getElem?_map, List.getElem?_range, hk]

theorem spec_c4_motion_packet_layout_witness :
    (23 + 1320 ≤ wbuf.length) ∧
    (∃ p c, PacketMotionData.new ⟨wbuf, 23⟩ (headerAt wbuf 0) = ok (p, c) ∧
      p.motion_data.length = 20 ∧
      (∀ k, k < 20 → ∃ md, MotionData.new ⟨wbuf, 23 + 60 * k⟩ =
          ok (md, ⟨wbuf, 23 + 60 * k + 60⟩) ∧ p.motion_data[k]? = some md) ∧
      p.local_velocity_x = le32At wbuf (23 + 1280) ∧
      p.local_velocity_y = le32At wbuf (23 + 1284) ∧
      p.local_velocity_z = le32At wbuf (23 + 1288) ∧
      p.angular_velocity_x = le32At wbuf (23 + 1292) ∧
      p.angular_velocity_y = le32At wbuf (23 + 1296) ∧
      p.angular_velocity_z = le32At wbuf (23 + 1300) ∧
      p.angular_acceleration_x = le32At wbuf (23 + 1304) ∧
      p.angular_acceleration_y = le32At wbuf (23 + 1308) ∧
      p.angular_acceleration_z = le32At wbuf (23 + 1312) ∧
      p.front_wheels_angle = le32At wbuf (23 + 1316)) :=
  ⟨by rw [wbuf_length]; omega,
    spec_c4_motion_packet_layout wbuf 23 (headerAt wbuf 0) (by rw [wbuf_length]; omega)⟩

/-- Bytes of the four little-endian IEEE754 floats 1.0, 2.0, 3.0 and 4.0,
in that order — the input of the documented wheel-quad scenario. -/
def quadBytes : List Nat :=
  [0, 0, 128, 63, 0, 0, 0, 64, 0, 0, 64, 64, 0, 0, 128, 64]

/-- C5: the wheel-quad decode reads its four values in buffer order and
stores them in the fields RL, RR, FL, FR in that order: the first encoded
float becomes `rear_left`, the second `rear_right`, the third
`front_left`, the fourth `front_right` — no reordering. -/
theorem spec_c5_wheel_quad_order (data : List Nat) (pos : Nat)
    (h : pos + 16 ≤ data.length) :
    readWheelData ⟨data, pos⟩ =
      ok (WheelData.new (le32At data pos) (le32At data (pos + 4))
          (le32At data (pos + 8)) (le32At data (pos + 12)), ⟨data, pos + 16⟩) ∧
    (WheelData.new (le32At data pos) (le32At data (pos + 4))
        (le32At data (pos + 8)) (le32At data (pos + 12))).rear_left =
      le32At data pos ∧
    (WheelData.new (le32At data pos) (le32At data (pos + 4))
        (le32At data (pos + 8)) (le32At data (pos + 12))).rear_right =
      le32At data (pos + 4) ∧
    (WheelData.new (le32At data pos) (le32At data (pos + 4))
        (le32At data (pos + 8)) (le32At data (pos + 12))).front_left =
      le32At data (pos + 8) ∧
    (WheelData.new (le32At data pos) (le32At data (pos + 4))
        (le32At data (pos + 8)) (le32At data (pos + 12))).front_right =
      le32At data (pos + 12) :=
  ⟨readWheelData_char data pos h, rfl, rfl, rfl, rfl⟩

theorem spec_c5_wheel_quad_order_witness :
    (0 + 16 ≤ quadBytes.length) ∧
    readWheelData ⟨quadBytes, 0⟩ =
      ok (WheelData.new 1065353216 1073741824 1077936128 1082130432,
        ⟨quadBytes, 16⟩) :=
  ⟨by decide,
    ((spec_c5_wheel_quad_order quadBytes 0 (by decide)).1).trans (by decide)⟩

/-- C6: the six normalised direction components of a decoded motion record
are the raw signed 16-bit integers read from the buffer — the decoder
stores them as integers (the record's fields are `i16`), with no division
by 32767.0 and no conversion to float. -/
theorem spec_c6_raw_direction_components (data : List Nat) (pos : Nat)
    (h : pos + 60 ≤ data.length) :
    ∃ md c, MotionData.new ⟨data, pos⟩ = ok (md, c) ∧
      md.world_forward_dir_x = i16At data (pos + 24) ∧
      md.world_forward_dir_y = i16At data (pos + 26) ∧
      md.world_forward_dir_z = i16At data (pos + 28) ∧
      md.world_right_dir_x = i16At data (pos + 30) ∧
      md.world_right_dir_y = i16At data (pos + 32) ∧
      md.world_right_dir_z = i16At data (pos + 34) :=
  ⟨motionDataAt data pos, ⟨data, pos + 60⟩, motionData_new_char data pos h,
    rfl, rfl, rfl, rfl, rfl, rfl⟩

/-- Sample 60-byte motion record whose forward-direction X component is
the 16-bit pattern 0x8001, i.e. the raw value -32767. -/
def dirBytes : List Nat :=
  List.replicate 24 0 ++ [1, 128] ++ List.replicate 34 0

theorem spec_c6_raw_direction_components_witness :
    (0 + 60 ≤ dirBytes.length) ∧
    (∃ md c, MotionData.new ⟨dirBytes, 0⟩ = ok (md, c) ∧
      md.world_forward_dir_x = i16At dirBytes (0 + 24) ∧
      md.world_forward_dir_y = i16At dirBytes (0 + 26) ∧
      md.world_forward_dir_z = i16At dirBytes (0 + 28) ∧
      md.world_right_dir_x = i16At dirBytes (0 + 30) ∧
      md.world_right_dir_y = i16At dirBytes (0 + 32) ∧
      md.world_right_dir_z = i16At dirBytes (0 + 34)) ∧
    i16At dirBytes (0 + 24) = -32767 :=
  ⟨by decide, spec_c6_raw_direction_components dirBytes 0 (by decide), by decide⟩

/-- C8: decoding is a pure function of the buffer contents — a successful
decode leaves the buffer unchanged (its only effect is cursor
advancement), so running the decode again over the same buffer contents
yields a value-equal result. -/
theorem spec_c8_idempotent_decode (buf : List Nat) (hd : PacketHeader)
    (p : PacketMotionData) (c : ByteCursor)
    (h : PacketMotionData.new ⟨buf, 0⟩ hd = ok (p, c)) :
    c.data = buf ∧ PacketMotionData.new ⟨c.data, 0⟩ hd = ok (p, c) := by
  have hlen : 1320 ≤ buf.length := by
    by_contra hlt
    rw [packetMotionData_new_panicked buf 0 (by omega) hd] at h
    cases h
  have hchar := packetMotionData_new_char buf 0 (by omega) hd
  rw [hchar] at h
  simp only [ok.injEq, Prod.mk.injEq] at h
  obtain ⟨hp, hc⟩ := h
  subst hp
  subst hc
  exact ⟨rfl, by simpa using hchar⟩

theorem spec_c8_idempotent_decode_witness :
    PacketMotionData.new ⟨wbuf, 0⟩ sampleHeader =
      ok (packetMotionAt wbuf 0 sampleHeader, ⟨wbuf, 1320⟩) ∧
    (⟨wbuf, 1320⟩ : ByteCursor).data = wbuf ∧
    PacketMotionData.new ⟨(⟨wbuf, 1320⟩ : ByteCursor).data, 0⟩ sampleHeader =
      ok (packetMotionAt wbuf 0 sampleHeader, ⟨wbuf, 1320⟩) := by
  have hok : PacketMotionData.new ⟨wbuf, 0⟩ sampleHeader =
      ok (packetMotionAt wbuf 0 sampleHeader, ⟨wbuf, 1320⟩) := by
    simpa using packetMotionData_new_char wbuf 0 (by rw [wbuf_length]; omega) sampleHeader
  have h2 := spec_c8_idempotent_decode wbuf sampleHeader _ _ hok
  exact ⟨hok, h2.1, h2.2⟩

/-- C9: a successful `PacketMotionData::new` stores the header argument
unchanged in the returned packet's `header` field — the payload decode
reads only from the cursor and does not modify any header field. -/
theorem spec_c9_header_preserved (data : List Nat) (pos : Nat)
    (hd : PacketHeader) (p : PacketMotionData) (c : ByteCursor)
    (h : PacketMotionData.new ⟨data, pos⟩ hd = ok (p, c)) :
    p.header = hd := by
  have hlen : pos + 1320 ≤ data.length := by
    by_contra hlt
    rw [packetMotionData_new_panicked data pos (by omega) hd] at h
    cases h
  rw [packetMotionData_new_char data pos hlen hd] at h
  simp only [ok.injEq, Prod.mk.injEq] at h
  obtain ⟨hp, -⟩ := h
  rw [← hp]
  rfl

theorem spec_c9_header_preserved_witness :
    PacketMotionData.new ⟨wbuf, 0⟩ sampleHeader =
      ok (packetMotionAt wbuf 0 sampleHeader, ⟨wbuf, 1320⟩) ∧
    (packetMotionAt wbuf 0 sampleHeader).header = sampleHeader := by
  have hok : PacketMotionData.new ⟨wbuf, 0⟩ sampleHeader =
      ok (packetMotionAt wbuf 0 sampleHeader, ⟨wbuf, 1320⟩) := by
    simpa using packetMotionData_new_char wbuf 0 (by rw [wbuf_length]; omega) sampleHeader
  exact ⟨hok, spec_c9_header_preserved wbuf 0 sampleHeader _ _ hok⟩

/-- C10: every successful `PacketMotionData::new` consumes exactly 1320
bytes after the header — twenty 60-byte motion records (each six 4-byte
floats, six 2-byte signed integers, six 4-byte floats), five 16-byte
wheel quads, and ten 4-byte scalar floats — and every successful
`MotionData::new` consumes exactly 60 bytes. -/
theorem spec_c10_payload_consumption (data : List Nat) (pos : Nat)
    (hd : PacketHeader) (p : PacketMotionData) (c : ByteCursor)
    (h : PacketMotionData.new ⟨data, pos⟩ hd = ok (p, c)) :
    c.pos = pos + 1320 ∧
    c.pos = pos + (20 * 60 + 5 * 16 + 10 * 4) ∧
    (∀ d q md c2, MotionData.new ⟨d, q⟩ = ok (md, c2) →
      c2.pos = q + (6 * 4 + 6 * 2 + 6 * 4)) := by
  have hlen : pos + 1320 ≤ data.length := by
    by_contra hlt
    rw [packetMotionData_new_panicked data pos (by omega) hd] at h
    cases h
  rw [packetMotionData_new_char data pos hlen hd] at h
  simp only [ok.injEq, Prod.mk.injEq] at h
  obtain ⟨-, hc⟩ := h
  subst hc
  refine ⟨rfl, rfl, ?_⟩
  intro d q md c2 h2
  have hlen2 : q + 60 ≤ d.length := by
    by_contra hlt
    rw [motionData_new_panicked d q (by omega)] at h2
    cases h2
  rw [motionData_new_char d q hlen2] at h2
  simp only [ok.injEq, Prod.mk.injEq] at h2
  obtain ⟨-, hc2⟩ := h2
  subst hc2
  rfl

theorem spec_c10_payload_consumption_witness :
    PacketMotionData.new ⟨wbuf, 0⟩ sampleHeader =
      ok (packetMotionAt wbuf 0 sampleHeader, ⟨wbuf, 1320⟩) ∧
    (⟨wbuf, 1320⟩ : ByteCursor).pos = 0 + 1320 := by
  have hok : PacketMotionData.new ⟨wbuf, 0⟩ sampleHeader =
      ok (packetMotionAt wbuf 0 sampleHeader, ⟨wbuf, 1320⟩) := by
    simpa using packetMotionData_new_char wbuf 0 (by rw [wbuf_length]; omega) sampleHeader
  exact ⟨hok, (spec_c10_payload_consumption wbuf 0 sampleHeader _ _ hok).1⟩

/-- C7: one `Stream::next` call, as a function of its single socket
receive, returns `Ok(Some(p))` exactly when a datagram was received and
fully decoded to `p`, `Ok(None)` (not an error) exactly when the
non-blocking receive reports `WouldBlock`, and an error exactly when
either the socket fails for another reason or decoding the received
datagram fails; it never panics (the call is total — blocking cannot occur
since the one receive's outcome is already given). -/
theorem spec_c7_poll_result_states (r : RecvResult) :
    (streamNext r = ok none ↔
      ∃ e, r = RecvResult.err e ∧ e.kind = IoErrorKind.wouldBlock) ∧
    (∀ p, streamNext r = ok (some p) ↔
      ∃ d, r = RecvResult.ok d ∧ parsePacket (recvLen d) (recvBuffer d) = ok p) ∧
    (∀ u, streamNext r = err u ↔
      ((∃ e, r = RecvResult.err e ∧ e.kind ≠ IoErrorKind.wouldBlock ∧
          u = ⟨"Error reading from socket: " ++ e.debugRepr⟩) ∨
        (∃ d, r = RecvResult.ok d ∧
          parsePacket (recvLen d) (recvBuffer d) = err u))) ∧
    streamNext r ≠ panicked := by
  cases r with
  | ok d =>
    have hnp : parsePacket (recvLen d) (recvBuffer d) ≠ panicked :=
      parsePacket_no_panic _ _ (by rw [recvBuffer_length]; omega)
    rcases hp : parsePacket (recvLen d) (recvBuffer d) with p0 | u0 | _
    · refine ⟨?_, ?_, ?_, ?_⟩
      · simp [streamNext, hp]
      · intro p
        simp [streamNext, hp, eq_comm]
      · intro u
        simp [streamNext, hp]
      · simp [streamNext, hp]
    · refine ⟨?_, ?_, ?_, ?_⟩
      · simp [streamNext, hp]
      · intro p
        simp [streamNext, hp]
      · intro u
        simp [streamNext, hp, eq_comm]
      · simp [streamNext, hp]
    · exact absurd hp hnp
  | err e =>
    by_cases hk : e.kind = IoErrorKind.wouldBlock
    · refine ⟨?_, ?_, ?_, ?_⟩
      · simp [streamNext, hk]
      · intro p
        simp [streamNext, hk]
      · intro u
        simp [streamNext, hk]
      · simp [streamNext, hk]
    · refine ⟨?_, ?_, ?_, ?_⟩
      · simp [streamNext, hk]
      · intro p
        simp [streamNext, hk]
      · intro u
        constructor
        · intro hu
          refine Or.inl ⟨e, rfl, hk, ?_⟩
          have h2 : (err ⟨"Error reading from socket: " ++ e.debugRepr⟩ :
              DecodeResult (Option Packet)) = err u := by
            simpa [streamNext, hk] using hu
          cases h2
          rfl
        · rintro (⟨e', he', hk', hu⟩ | ⟨d, hd, -⟩)
          · cases he'
            subst hu
            simp [streamNext, hk]
          · cases hd
      · simp [streamNext, hk]

